import Mathlib

/-!
Verification development for the TAI-x402 Survival-Gated Revenue Service.

Shallow embedding of the core components:
* the tier classifier inlined in `showBalance` (tai-main, lines 141-148),
* the resource monitor `checkResources` (monitor/resources),
* the inference router `createMultiProviderClient` / `setLowComputeMode`
  and the Anthropic / OpenAI-compatible chat paths (inference/providers),
* the payment-gated HTTP handler of `createRevenueServer` and the
  `RevenueTracker` (revenue module).

Balances and USDC prices are JavaScript numbers used as exact decimals in
the source; they are embedded as rationals (`ℚ`). Token counts are `ℕ`.
-/

namespace TaiX402

/-! ### Tier classifier

The survival-state classification inlined in `showBalance`:

```
let status: AgentState = "dead";
if (balance >= survivalThresholds.normal) status = "running";
else if (balance >= survivalThresholds.lowCompute) status = "low_compute";
else if (balance >= survivalThresholds.critical) status = "critical";
```

The spec names the top tier `normal`; the source's string literal for that
same tier is `"running"` (type `AgentState`).
-/

inductive AgentState where
  | running
  | low_compute
  | critical
  | dead
deriving DecidableEq, Repr

/-- Threshold configuration `survivalThresholds` from the agent config. -/
structure SurvivalThresholds where
  normal : ℚ
  lowCompute : ℚ
  critical : ℚ
deriving DecidableEq, Repr

/-- Survival-state classification from `showBalance` (initialise to `dead`,
then override through the `>=` cascade). -/
def showBalanceStatus (t : SurvivalThresholds) (balance : ℚ) : AgentState :=
  if balance ≥ t.normal then .running
  else if balance ≥ t.lowCompute then .low_compute
  else if balance ≥ t.critical then .critical
  else .dead

/-- Distress rank of a tier: `normal`(= `running`) < `low_compute` <
`critical` < `dead` in ascending distress, per the spec's total order. -/
def distress : AgentState → ℕ
  | .running => 0
  | .low_compute => 1
  | .critical => 2
  | .dead => 3

/-- C1: with ordered thresholds, the classifier maps `b ≥ normal` to the
top tier (`normal`, rendered `running` by the source), `lowCompute ≤ b <
normal` to `low_compute`, `critical ≤ b < lowCompute` to `critical`, and
`b < critical` (hence every negative balance) to `dead`; with thresholds
{normal:10, lowCompute:5, critical:1}, 10 ↦ running, 9.99 and 5 ↦
low_compute, 4.99 and 1 ↦ critical, 0.99 ↦ dead. -/
theorem showBalanceStatus_intervals (t : SurvivalThresholds) (b : ℚ)
    (hcl : t.critical < t.lowCompute) (hln : t.lowCompute < t.normal)
    (hc0 : 0 ≤ t.critical) :
    (t.normal ≤ b → showBalanceStatus t b = .running) ∧
    (t.lowCompute ≤ b → b < t.normal → showBalanceStatus t b = .low_compute) ∧
    (t.critical ≤ b → b < t.lowCompute → showBalanceStatus t b = .critical) ∧
    (b < t.critical → showBalanceStatus t b = .dead) ∧
    (b < 0 → showBalanceStatus t b = .dead) ∧
    showBalanceStatus ⟨10, 5, 1⟩ 10 = .running ∧
    showBalanceStatus ⟨10, 5, 1⟩ (999/100) = .low_compute ∧
    showBalanceStatus ⟨10, 5, 1⟩ 5 = .low_compute ∧
    showBalanceStatus ⟨10, 5, 1⟩ (499/100) = .critical ∧
    showBalanceStatus ⟨10, 5, 1⟩ 1 = .critical ∧
    showBalanceStatus ⟨10, 5, 1⟩ (99/100) = .dead := by
  refine ⟨?_, ?_, ?_, ?_, ?_, by norm_num [showBalanceStatus],
    by norm_num [showBalanceStatus], by norm_num [showBalanceStatus],
    by norm_num [showBalanceStatus], by norm_num [showBalanceStatus],
    by norm_num [showBalanceStatus]⟩ <;>
    (intros; unfold showBalanceStatus; split_ifs <;> first | rfl | linarith)

/-- Closed witness for `showBalanceStatus_intervals`: thresholds
{normal:10, lowCompute:5, critical:1} satisfy the ordering hypotheses and
the balance 7 classifies as `low_compute`. -/
theorem showBalanceStatus_intervals_witness :
    (1:ℚ) < 5 ∧ (5:ℚ) < 10 ∧ (0:ℚ) ≤ 1 ∧
    showBalanceStatus ⟨10, 5, 1⟩ 7 = .low_compute :=
  ⟨by norm_num, by norm_num, by norm_num,
    (showBalanceStatus_intervals ⟨10, 5, 1⟩ 7 (by norm_num) (by norm_num)
      (by norm_num)).2.1 (by norm_num) (by norm_num)⟩

/-- C9: with ordered thresholds the classification is monotone — a larger
balance never yields a more distressed tier — and the result is `dead`
exactly when the balance is strictly below the critical threshold. -/
theorem showBalanceStatus_monotone_dead_iff (t : SurvivalThresholds)
    (hcl : t.critical < t.lowCompute) (hln : t.lowCompute < t.normal)
    (hc0 : 0 ≤ t.critical) :
    (∀ b1 b2 : ℚ, b1 ≤ b2 →
      distress (showBalanceStatus t b2) ≤ distress (showBalanceStatus t b1)) ∧
    (∀ b : ℚ, showBalanceStatus t b = .dead ↔ b < t.critical) := by
  constructor
  · intro b1 b2 h
    unfold showBalanceStatus
    split_ifs <;> simp [distress] <;> linarith
  · intro b
    unfold showBalanceStatus
    split_ifs with h1 h2 h3 <;> simp <;> linarith

/-- Closed witness for `showBalanceStatus_monotone_dead_iff` at thresholds
{normal:10, lowCompute:5, critical:1} and balances 2 ≤ 7. -/
theorem showBalanceStatus_monotone_dead_iff_witness :
    (1:ℚ) < 5 ∧ (5:ℚ) < 10 ∧ (0:ℚ) ≤ 1 ∧
    distress (showBalanceStatus ⟨10, 5, 1⟩ 7) ≤
      distress (showBalanceStatus ⟨10, 5, 1⟩ 2) ∧
    (showBalanceStatus ⟨10, 5, 1⟩ (1/2) = .dead ↔ (1/2 : ℚ) < 1) :=
  ⟨by norm_num, by norm_num, by norm_num,
    (showBalanceStatus_monotone_dead_iff ⟨10, 5, 1⟩ (by norm_num)
      (by norm_num) (by norm_num)).1 2 7 (by norm_num),
    (showBalanceStatus_monotone_dead_iff ⟨10, 5, 1⟩ (by norm_num)
      (by norm_num) (by norm_num)).2 (1/2)⟩

/-! ### Inference router

From `createMultiProviderClient`: the mutable closure state is
`currentProvider`, `currentModel`, `maxTokens`, embedded as `RouterState`.
JavaScript `x || d` on an optional number treats `0` as falsy, embedded as
`jsOr`.
-/

/-- JavaScript `x || d` for an optional number: `undefined` and `0` both
fall back to the default. -/
def jsOr (o : Option ℕ) (d : ℕ) : ℕ :=
  match o with
  | some n => if n = 0 then d else n
  | none => d

structure ProviderConfig where
  name : String
  apiUrl : String
  apiKey : String
  defaultModel : String
  maxTokens : Option ℕ
deriving DecidableEq, Repr

structure InferenceProviders where
  deepseek : Option ProviderConfig
  tongyi : Option ProviderConfig
  openai : Option ProviderConfig
  anthropic : Option ProviderConfig
  custom : Option ProviderConfig
deriving DecidableEq, Repr

/-- Primary provider pick: `providers.deepseek || providers.tongyi ||
providers.openai || providers.anthropic || providers.custom`. -/
def primaryProvider (p : InferenceProviders) : Option ProviderConfig :=
  (((p.deepseek.orElse fun _ => p.tongyi).orElse fun _ => p.openai).orElse
    fun _ => p.anthropic).orElse fun _ => p.custom

/-- The closure-captured mutable router state of
`createMultiProviderClient`. -/
structure RouterState where
  currentProvider : ProviderConfig
  currentModel : String
  maxTokens : ℕ
deriving DecidableEq, Repr

/-- Initial router state: `currentProvider = primaryProvider`,
`currentModel = primaryProvider.defaultModel`,
`maxTokens = primaryProvider.maxTokens || 4096`. -/
def initialRouterState (primary : ProviderConfig) : RouterState :=
  { currentProvider := primary
    currentModel := primary.defaultModel
    maxTokens := jsOr primary.maxTokens 4096 }

/-- Router construction: fails (`throw`) when no provider is configured,
otherwise starts from the primary provider. -/
def createMultiProviderClient (p : InferenceProviders) : Option RouterState :=
  (primaryProvider p).map initialRouterState

/-- The `setLowComputeMode` state transition: when enabling, switch to
deepseek (model `deepseek-chat`) if configured, else tongyi (model
`qwen-turbo`) if configured, and set `maxTokens = 2048` in every case;
when disabling, restore the primary provider, its default model and
`primary.maxTokens || 4096`. -/
def setLowComputeMode (p : InferenceProviders) (primary : ProviderConfig)
    (s : RouterState) (enabled : Bool) : RouterState :=
  if enabled then
    match p.deepseek with
    | some d =>
        { currentProvider := d, currentModel := "deepseek-chat", maxTokens := 2048 }
    | none =>
        match p.tongyi with
        | some t =>
            { currentProvider := t, currentModel := "qwen-turbo", maxTokens := 2048 }
        | none => { s with maxTokens := 2048 }
  else
    { currentProvider := primary
      currentModel := primary.defaultModel
      maxTokens := jsOr primary.maxTokens 4096 }

/-- C6: for a fixed provider configuration, `setLowComputeMode` is
idempotent in both directions; enabling deterministically selects the
cheapest configured provider in the fixed preference order deepseek then
tongyi, with token budget 2048; disabling restores the primary provider,
its default model and its original token budget (the initial router
state). -/
theorem setLowComputeMode_idempotent_cheapest (p : InferenceProviders)
    (primary : ProviderConfig) (hp : primaryProvider p = some primary) :
    (∀ (s : RouterState) (e : Bool),
      setLowComputeMode p primary (setLowComputeMode p primary s e) e =
        setLowComputeMode p primary s e) ∧
    (∀ (s : RouterState) (d : ProviderConfig), p.deepseek = some d →
      setLowComputeMode p primary s true =
        ⟨d, "deepseek-chat", 2048⟩) ∧
    (∀ (s : RouterState) (t : ProviderConfig),
      p.deepseek = none → p.tongyi = some t →
      setLowComputeMode p primary s true =
        ⟨t, "qwen-turbo", 2048⟩) ∧
    (∀ s : RouterState,
      setLowComputeMode p primary s false = initialRouterState primary) := by
  refine ⟨fun s e => ?_, fun s d hd => ?_, fun s t hd ht => ?_, fun s => ?_⟩
  · cases e <;> unfold setLowComputeMode <;>
      cases hds : p.deepseek <;> cases hts : p.tongyi <;> simp
  · unfold setLowComputeMode
    rw [hd]
    simp
  · unfold setLowComputeMode
    rw [hd, ht]
    simp
  · unfold setLowComputeMode initialRouterState
    simp

/-- Closed witness for `setLowComputeMode_idempotent_cheapest` on a
configuration with deepseek and openai present. -/
theorem setLowComputeMode_idempotent_cheapest_witness :
    let ds : ProviderConfig :=
      ⟨"deepseek", "https://api.deepseek.com", "k1", "deepseek-chat", none⟩
    let oa : ProviderConfig :=
      ⟨"openai", "https://api.openai.com", "k2", "gpt-4o-mini", some 8192⟩
    let p : InferenceProviders := ⟨some ds, none, some oa, none, none⟩
    let s : RouterState := ⟨oa, "gpt-4o-mini", 8192⟩
    setLowComputeMode p ds (setLowComputeMode p ds s true) true =
        setLowComputeMode p ds s true ∧
      setLowComputeMode p ds s true = ⟨ds, "deepseek-chat", 2048⟩ ∧
      setLowComputeMode p ds s false = initialRouterState ds := by
  intro ds oa p s
  have h := setLowComputeMode_idempotent_cheapest p ds (by rfl)
  exact ⟨h.1 s true, h.2.1 s ds (by rfl), h.2.2.2 s⟩

/-- C10: enabling low-compute mode with neither deepseek nor tongyi
configured leaves the active provider and active model unchanged and only
reduces the token budget to 2048; the router state has no other field. -/
theorem setLowComputeMode_no_cheap_fallback (p : InferenceProviders)
    (primary : ProviderConfig) (s : RouterState)
    (hd : p.deepseek = none) (ht : p.tongyi = none) :
    (setLowComputeMode p primary s true).currentProvider =
        s.currentProvider ∧
      (setLowComputeMode p primary s true).currentModel = s.currentModel ∧
      (setLowComputeMode p primary s true).maxTokens = 2048 ∧
      setLowComputeMode p primary s true = { s with maxTokens := 2048 } := by
  unfold setLowComputeMode
  rw [hd, ht]
  simp

/-- Closed witness for `setLowComputeMode_no_cheap_fallback` on a
configuration with only openai. -/
theorem setLowComputeMode_no_cheap_fallback_witness :
    let oa : ProviderConfig :=
      ⟨"openai", "https://api.openai.com", "k2", "gpt-4o-mini", some 8192⟩
    let p : InferenceProviders := ⟨none, none, some oa, none, none⟩
    let s : RouterState := ⟨oa, "gpt-4o-mini", 8192⟩
    (setLowComputeMode p oa s true).currentProvider = s.currentProvider ∧
      (setLowComputeMode p oa s true).currentModel = s.currentModel ∧
      (setLowComputeMode p oa s true).maxTokens = 2048 ∧
      setLowComputeMode p oa s true = { s with maxTokens := 2048 } := by
  intro oa p s
  exact setLowComputeMode_no_cheap_fallback p oa s (by rfl) (by rfl)

/-! ### Anthropic chat path: system-prompt extraction and role remap

From `chatViaAnthropic`: the source folds over the incoming messages,
accumulating `systemPrompt += (systemPrompt ? "\n" : "") + msg.content`
for system-role entries and collecting the others in order; the request
body then carries the non-system messages with roles remapped to
`assistant`/`user` and, when the accumulated prompt is nonempty, a
top-level `system` field.  Optional tool-call fields of the source's
`ChatMessage` are not read on this path and are omitted from the
embedding. -/

structure ChatMessage where
  role : String
  content : String
deriving DecidableEq, Repr

structure AnthropicRequestBody where
  model : String
  max_tokens : ℕ
  messages : List ChatMessage
  system : Option String
deriving DecidableEq, Repr

/-- One iteration of the `for (const msg of params.messages)` loop of
`chatViaAnthropic`. -/
def anthropicFoldStep (acc : String × List ChatMessage) (msg : ChatMessage) :
    String × List ChatMessage :=
  if msg.role = "system" then
    (acc.1 ++ (if acc.1 = "" then "" else "\n") ++ msg.content, acc.2)
  else
    (acc.1, acc.2 ++ [msg])

/-- The system-prompt / non-system split computed by `chatViaAnthropic`. -/
def anthropicSystemFold (msgs : List ChatMessage) : String × List ChatMessage :=
  msgs.foldl anthropicFoldStep ("", [])

/-- The request body built by `chatViaAnthropic` (role remap
`msg.role === "assistant" ? "assistant" : "user"`; `system` set only when
the accumulated prompt is truthy, i.e. nonempty). -/
def chatViaAnthropicBody (model : String) (tokenLimit : ℕ)
    (msgs : List ChatMessage) : AnthropicRequestBody :=
  { model := model
    max_tokens := tokenLimit
    messages := (anthropicSystemFold msgs).2.map fun m =>
      ⟨if m.role = "assistant" then "assistant" else "user", m.content⟩
    system :=
      if (anthropicSystemFold msgs).1 = "" then none
      else some (anthropicSystemFold msgs).1 }

/-- Contents of the system-role entries, in their original order. -/
def sysContents (msgs : List ChatMessage) : List String :=
  (msgs.filter fun m => m.role == "system").map ChatMessage.content

/-- Spec-side definition, following the spec's words: the system entries
are "concatenated in order with newline separation" — exactly one newline
between consecutive entries. -/
def specSystemConcat : List String → String
  | [] => ""
  | [c] => c
  | c :: cs => c ++ "\n" ++ specSystemConcat cs

lemma append_newline_ne (a c : String) : a ++ "\n" ++ c ≠ "" := by
  intro h
  have h2 := congrArg String.length h
  rw [String.length_append, String.length_append,
    show ("\n" : String).length = 1 from rfl,
    show ("" : String).length = 0 from rfl] at h2
  omega

lemma specSystemConcat_cons_append (a c : String) (cs : List String) :
    specSystemConcat ((a ++ "\n" ++ c) :: cs) =
      a ++ "\n" ++ specSystemConcat (c :: cs) := by
  cases cs <;> simp [specSystemConcat, String.append_assoc]

lemma stringFoldl_newline (cs : List String) : ∀ a : String, a ≠ "" →
    cs.foldl (fun x c => x ++ (if x = "" then "" else "\n") ++ c) a =
      specSystemConcat (a :: cs) := by
  induction cs with
  | nil => intro a _; simp [specSystemConcat]
  | cons c cs ih =>
    intro a ha
    simp only [List.foldl_cons, if_neg ha]
    rw [ih (a ++ "\n" ++ c) (append_newline_ne a c),
      specSystemConcat_cons_append]
    rfl

lemma anthropicFold_fst (msgs : List ChatMessage) :
    ∀ (a : String) (l : List ChatMessage),
      (msgs.foldl anthropicFoldStep (a, l)).1 =
        (sysContents msgs).foldl
          (fun x c => x ++ (if x = "" then "" else "\n") ++ c) a := by
  induction msgs with
  | nil => intro a l; simp [sysContents]
  | cons m rest ih =>
    intro a l
    by_cases hm : m.role = "system" <;>
      simp [anthropicFoldStep, hm, sysContents, ih]

lemma anthropicFold_snd (msgs : List ChatMessage) :
    ∀ (a : String) (l : List ChatMessage),
      (msgs.foldl anthropicFoldStep (a, l)).2 =
        l ++ msgs.filter fun m => !(m.role == "system") := by
  induction msgs with
  | nil => intro a l; simp
  | cons m rest ih =>
    intro a l
    by_cases hm : m.role = "system" <;>
      simp [anthropicFoldStep, hm, ih]

lemma anthropicFold_fst_spec (msgs : List ChatMessage)
    (h : ∀ c ∈ sysContents msgs, c ≠ "") :
    (anthropicSystemFold msgs).1 = specSystemConcat (sysContents msgs) := by
  rw [anthropicSystemFold, anthropicFold_fst msgs "" []]
  cases hcs : sysContents msgs with
  | nil => simp [specSystemConcat]
  | cons c cs =>
    have hc : c ≠ "" := h c (by rw [hcs]; exact List.mem_cons_self c cs)
    have key := stringFoldl_newline cs c hc
    simp only [List.foldl_cons]
    simpa using key

/-- C7 (amended): the Anthropic request body keeps every non-system
message in order with roles remapped so only `user`/`assistant` appear;
and provided every system entry has nonempty content, the `system` field
is exactly the newline-separated in-order concatenation of the system
contents (omitted when empty).  The nonemptiness proviso is forced: a
leading empty system entry contributes no separator (see the
counterexample). -/
theorem chatViaAnthropic_remap (model : String) (lim : ℕ)
    (msgs : List ChatMessage) :
    ((chatViaAnthropicBody model lim msgs).messages =
      (msgs.filter fun m => !(m.role == "system")).map fun m =>
        ⟨if m.role = "assistant" then "assistant" else "user", m.content⟩) ∧
    (∀ m ∈ (chatViaAnthropicBody model lim msgs).messages,
      m.role = "user" ∨ m.role = "assistant") ∧
    ((∀ c ∈ sysContents msgs, c ≠ "") →
      (chatViaAnthropicBody model lim msgs).system =
        if specSystemConcat (sysContents msgs) = "" then none
        else some (specSystemConcat (sysContents msgs))) := by
  refine ⟨?_, ?_, ?_⟩
  · rw [chatViaAnthropicBody]
    simp only [anthropicSystemFold, anthropicFold_snd msgs "" [], List.nil_append]
  · intro m hm
    rw [chatViaAnthropicBody] at hm
    simp only [List.mem_map] at hm
    obtain ⟨m0, _, hm0⟩ := hm
    by_cases ha : m0.role = "assistant"
    · right; rw [← hm0]; simp [ha]
    · left; rw [← hm0]; simp [ha]
  · intro h
    rw [chatViaAnthropicBody]
    simp only [anthropicFold_fst_spec msgs h]

/-- Closed witness for `chatViaAnthropic_remap` on a two-system-message
transcript with nonempty contents: the field is `"a\nb"` and the tool role
is remapped to `user`. -/
theorem chatViaAnthropic_remap_witness :
    (∀ c ∈ sysContents [⟨"system", "a"⟩, ⟨"system", "b"⟩, ⟨"tool", "t"⟩],
        c ≠ "") ∧
      (chatViaAnthropicBody "claude-3-5-sonnet-20241022" 4096
          [⟨"system", "a"⟩, ⟨"system", "b"⟩, ⟨"tool", "t"⟩]).system =
        if specSystemConcat (sysContents
            [⟨"system", "a"⟩, ⟨"system", "b"⟩, ⟨"tool", "t"⟩]) = "" then none
        else some (specSystemConcat (sysContents
            [⟨"system", "a"⟩, ⟨"system", "b"⟩, ⟨"tool", "t"⟩])) :=
  ⟨by decide,
    (chatViaAnthropic_remap "claude-3-5-sonnet-20241022" 4096
      [⟨"system", "a"⟩, ⟨"system", "b"⟩, ⟨"tool", "t"⟩]).2.2 (by decide)⟩

/-- C7 counterexample: with system contents `""` then `"x"`, the source
sends `system = "x"`, while a newline between the two consecutive entries
would give `"\nx"`; the claim fails as stated. -/
theorem chatViaAnthropic_newline_counterexample :
    (chatViaAnthropicBody "m" 100
        [⟨"system", ""⟩, ⟨"system", "x"⟩]).system = some "x" ∧
      specSystemConcat (sysContents
        [⟨"system", ""⟩, ⟨"system", "x"⟩]) = "\nx" ∧
      (chatViaAnthropicBody "m" 100
          [⟨"system", ""⟩, ⟨"system", "x"⟩]).system ≠
        some (specSystemConcat (sysContents
          [⟨"system", ""⟩, ⟨"system", "x"⟩])) := by
  refine ⟨by decide, by decide, by decide⟩

/-! ### Token-usage normalization

From the response handling of `chatViaOpenAiCompatible` (fields
`usage.prompt_tokens`, `usage.completion_tokens`, `usage.total_tokens`,
each `|| 0`) and of `chatViaAnthropic` (fields `usage.input_tokens`,
`usage.output_tokens`, total computed as their sum). -/

structure TokenUsage where
  promptTokens : ℕ
  completionTokens : ℕ
  totalTokens : ℕ
deriving DecidableEq, Repr

/-- The optional `usage` object of an OpenAI-compatible backend response;
every field may be absent. -/
structure OpenAiUsagePayload where
  prompt_tokens : Option ℕ
  completion_tokens : Option ℕ
  total_tokens : Option ℕ
deriving DecidableEq, Repr

/-- The optional `usage` object of an Anthropic backend response. -/
structure AnthropicUsagePayload where
  input_tokens : Option ℕ
  output_tokens : Option ℕ
deriving DecidableEq, Repr

/-- Usage record built by `chatViaOpenAiCompatible`:
`{prompt_tokens || 0, completion_tokens || 0, total_tokens || 0}`. -/
def openAiUsageOf (usage : Option OpenAiUsagePayload) : TokenUsage :=
  { promptTokens := jsOr (usage.bind OpenAiUsagePayload.prompt_tokens) 0
    completionTokens := jsOr (usage.bind OpenAiUsagePayload.completion_tokens) 0
    totalTokens := jsOr (usage.bind OpenAiUsagePayload.total_tokens) 0 }

/-- Usage record built by `chatViaAnthropic`:
`{input_tokens || 0, output_tokens || 0, (input_tokens || 0) +
(output_tokens || 0)}`. -/
def anthropicUsageOf (usage : Option AnthropicUsagePayload) : TokenUsage :=
  { promptTokens := jsOr (usage.bind AnthropicUsagePayload.input_tokens) 0
    completionTokens := jsOr (usage.bind AnthropicUsagePayload.output_tokens) 0
    totalTokens := jsOr (usage.bind AnthropicUsagePayload.input_tokens) 0 +
      jsOr (usage.bind AnthropicUsagePayload.output_tokens) 0 }

/-- C8 (amended): both paths produce the normalized
{prompt, completion, total} record, but only the Anthropic path computes
`total = prompt + completion` (it always does); the OpenAI-compatible path
takes `total` from the backend's `total_tokens` and defaults it to 0 when
the field is omitted, rather than computing the sum. -/
theorem tokenUsage_normalization (u : Option AnthropicUsagePayload)
    (o : Option OpenAiUsagePayload)
    (ho : o.bind OpenAiUsagePayload.total_tokens = none) :
    (anthropicUsageOf u).totalTokens =
        (anthropicUsageOf u).promptTokens +
          (anthropicUsageOf u).completionTokens ∧
      (openAiUsageOf o).totalTokens = 0 := by
  constructor
  · rfl
  · rw [openAiUsageOf, ho]
    rfl

/-- Closed witness for `tokenUsage_normalization`: an Anthropic payload
{input 3, output 4} and an OpenAI payload with `total_tokens` absent. -/
theorem tokenUsage_normalization_witness :
    (some (AnthropicUsagePayload.mk (some 3) (some 4))).bind
        AnthropicUsagePayload.input_tokens = some 3 ∧
      (some (OpenAiUsagePayload.mk (some 3) (some 4) none)).bind
        OpenAiUsagePayload.total_tokens = none ∧
      (anthropicUsageOf (some ⟨some 3, some 4⟩)).totalTokens =
        (anthropicUsageOf (some ⟨some 3, some 4⟩)).promptTokens +
          (anthropicUsageOf (some ⟨some 3, some 4⟩)).completionTokens ∧
      (openAiUsageOf (some ⟨some 3, some 4, none⟩)).totalTokens = 0 :=
  ⟨rfl, rfl,
    (tokenUsage_normalization (some ⟨some 3, some 4⟩)
      (some ⟨some 3, some 4, none⟩) rfl).1,
    (tokenUsage_normalization (some ⟨some 3, some 4⟩)
      (some ⟨some 3, some 4, none⟩) rfl).2⟩

/-- C8 counterexample: on the OpenAI-compatible path, a backend response
with `prompt_tokens = 3`, `completion_tokens = 4` and `total_tokens`
omitted yields `totalTokens = 0`, not `3 + 4`. -/
theorem tokenUsage_openai_counterexample :
    (openAiUsageOf (some ⟨some 3, some 4, none⟩)).totalTokens = 0 ∧
      (openAiUsageOf (some ⟨some 3, some 4, none⟩)).promptTokens +
          (openAiUsageOf (some ⟨some 3, some 4, none⟩)).completionTokens = 7 ∧
      (openAiUsageOf (some ⟨some 3, some 4, none⟩)).totalTokens ≠
        (openAiUsageOf (some ⟨some 3, some 4, none⟩)).promptTokens +
          (openAiUsageOf (some ⟨some 3, some 4, none⟩)).completionTokens := by
  refine ⟨rfl, rfl, by decide⟩

/-! ### Revenue gate

From `createRevenueServer`: the per-request handler is embedded as a pure
function over the request.  `jsonParses` stands for success of
`JSON.parse` on the `X-Payment` header (its only use on success is a log
line).  The trace records which service handlers ran
(`handlersInvoked`) and which `RevenueTracker.recordEarning` calls the
request handler made (`earningsRecorded`) — the source request handler
never invokes the tracker, so that list is empty on every branch.
Handler failure (a thrown error, including inference errors) is the
`Except.error` case; the source catches it in the same `catch` as a parse
failure and answers 400. -/

inductive Network where
  | base
  | baseSepolia
deriving DecidableEq, Repr

/-- USDC contract address table `USDC_ADDRESSES`. -/
def usdcAddressOf : Network → String
  | .base => "0x833589fCD6eDb6E08f4c7C32D4f71b54bdA02913"
  | .baseSepolia => "0x036CbD53842c5426634e7929541eC2318f3dCF7e"

/-- The network name as written in the config and response bodies. -/
def networkName : Network → String
  | .base => "base"
  | .baseSepolia => "base-sepolia"

/-- EIP-155 chain identifier used in the challenge:
`network === "base-sepolia" ? "eip155:84532" : "eip155:8453"`. -/
def eip155Of : Network → String
  | .base => "eip155:8453"
  | .baseSepolia => "eip155:84532"

/-- One priced service; the handler consumes the request body and either
returns the result string or throws. -/
structure ServiceConfig where
  path : String
  description : String
  priceUsdc : ℚ
  handler : String → Except String String

structure RevenueConfig where
  port : ℕ
  network : Network
  walletAddress : String
  services : List ServiceConfig

/-- One entry of the challenge's `accepts` array. -/
structure ChallengeAccepts where
  scheme : String
  network : String
  maxAmountRequired : String
  payToAddress : String
  requiredDeadlineSeconds : ℕ
  usdcAddress : String
deriving DecidableEq, Repr

/-- JSON value of the `X-Payment-Required` header. -/
structure PaymentChallenge where
  x402Version : ℕ
  accepts : List ChallengeAccepts
deriving DecidableEq, Repr

/-- JSON body of the 402 response. -/
structure PaymentRequiredBody where
  error : String
  price : ℚ
  currency : String
  payTo : String
  network : String
deriving DecidableEq, Repr

inductive GateBody where
  | health (status : String) (services : ℕ)
  | serviceIndex (services : List (String × String × ℚ))
      (paymentAddress : String) (network : String)
  | errorMsg (error : String)
  | payRequired (b : PaymentRequiredBody)
  | result (r : String)
deriving DecidableEq, Repr

structure GateResponse where
  status : ℕ
  paymentRequiredHeader : Option PaymentChallenge
  body : GateBody
deriving DecidableEq, Repr

/-- An inbound HTTP request as the handler sees it: resolved pathname,
optional `X-Payment` header, request body. -/
structure Request where
  pathname : String
  xPayment : Option String
  body : String

/-- Response plus the side effects of one request. -/
structure GateTrace where
  response : GateResponse
  handlersInvoked : List String
  earningsRecorded : List (String × ℚ)

/-- The request handler of `createRevenueServer`, branch for branch. -/
def handleRevenueRequest (cfg : RevenueConfig) (jsonParses : String → Bool)
    (req : Request) : GateTrace :=
  if req.pathname = "/health" then
    ⟨⟨200, none, .health "ok" cfg.services.length⟩, [], []⟩
  else if req.pathname = "/services" then
    ⟨⟨200, none,
      .serviceIndex (cfg.services.map fun s => (s.path, s.description, s.priceUsdc))
        cfg.walletAddress (networkName cfg.network)⟩, [], []⟩
  else
    match cfg.services.find? fun s => s.path == req.pathname with
    | none => ⟨⟨404, none, .errorMsg "Service not found"⟩, [], []⟩
    | some service =>
      match req.xPayment with
      | none =>
        ⟨⟨402,
          some ⟨1,
            [⟨"exact", eip155Of cfg.network,
              toString ⌈service.priceUsdc * 1000000⌉,
              cfg.walletAddress, 300, usdcAddressOf cfg.network⟩]⟩,
          .payRequired ⟨"Payment required", service.priceUsdc, "USDC",
            cfg.walletAddress, networkName cfg.network⟩⟩, [], []⟩
      | some header =>
        if jsonParses header then
          match service.handler req.body with
          | .ok result =>
            ⟨⟨200, none, .result result⟩, [service.path], []⟩
          | .error _ =>
            ⟨⟨400, none, .errorMsg "Invalid payment"⟩, [service.path], []⟩
        else
          ⟨⟨400, none, .errorMsg "Invalid payment"⟩, [], []⟩

/-- The `RevenueTracker` class: a `Map` of per-service earnings (embedded
as an insertion-ordered association list) and a running total. -/
structure RevenueTracker where
  earnings : List (String × ℚ)
  totalEarnings : ℚ
deriving DecidableEq, Repr

def mapGet (m : List (String × ℚ)) (k : String) : Option ℚ :=
  (m.find? fun e => e.1 == k).map Prod.snd

def mapSet (m : List (String × ℚ)) (k : String) (v : ℚ) :
    List (String × ℚ) :=
  if (m.find? fun e => e.1 == k).isSome then
    m.map fun e => if e.1 == k then (k, v) else e
  else m ++ [(k, v)]

/-- `RevenueTracker.recordEarning`: add to the per-service entry
(`this.earnings.get(service) || 0` plus the amount) and to the total. -/
def RevenueTracker.recordEarning (t : RevenueTracker) (service : String)
    (amount : ℚ) : RevenueTracker :=
  { earnings := mapSet t.earnings service
      ((mapGet t.earnings service).getD 0 + amount)
    totalEarnings := t.totalEarnings + amount }

/-- Replay the recorded earning calls of a request trace on a tracker. -/
def applyEarnings (t : RevenueTracker) (es : List (String × ℚ)) :
    RevenueTracker :=
  es.foldl (fun acc e => acc.recordEarning e.1 e.2) t

lemma handleRevenueRequest_earnings (cfg : RevenueConfig)
    (jsonParses : String → Bool) (req : Request) :
    (handleRevenueRequest cfg jsonParses req).earningsRecorded = [] := by
  unfold handleRevenueRequest
  repeat' split
  all_goals rfl

/-- C2: a request to a configured service path (other than the free
discovery paths) without an `X-Payment` header answers 402, carries an
`X-Payment-Required` challenge whose `accepts[0].maxAmountRequired` is
`ceil(priceUsdc * 1_000_000)` rendered as a string, and a body with the
fields error / price / currency / payTo / network. -/
theorem revenueGate_402_challenge (cfg : RevenueConfig)
    (jsonParses : String → Bool) (req : Request) (service : ServiceConfig)
    (hh : req.pathname ≠ "/health") (hs : req.pathname ≠ "/services")
    (hfind : (cfg.services.find? fun s => s.path == req.pathname)
      = some service)
    (hpay : req.xPayment = none) :
    (handleRevenueRequest cfg jsonParses req).response.status = 402 ∧
      (((handleRevenueRequest cfg jsonParses req).response.paymentRequiredHeader.bind
            fun ch => ch.accepts.head?).map ChallengeAccepts.maxAmountRequired)
        = some (toString ⌈service.priceUsdc * 1000000⌉) ∧
      (handleRevenueRequest cfg jsonParses req).response.body = .payRequired
        { error := "Payment required"
          price := service.priceUsdc
          currency := "USDC"
          payTo := cfg.walletAddress
          network := networkName cfg.network } := by
  simp [handleRevenueRequest, hh, hs, hfind, hpay]

/-- Closed witness for `revenueGate_402_challenge`: the `/api/chat`
catalog entry priced 0.001 USDC yields a challenge amount of 1000 atomic
units. -/
theorem revenueGate_402_challenge_witness :
    ("/api/chat" : String) ≠ "/health" ∧
      ("/api/chat" : String) ≠ "/services" ∧
      (handleRevenueRequest
          ⟨3402, .base, "0xW",
            [⟨"/api/chat", "Chat with the AI agent", 1/1000,
              fun _ => .ok "hi"⟩]⟩
          (fun _ => true)
          ⟨"/api/chat", none, ""⟩).response.status = 402 ∧
      (((handleRevenueRequest
            ⟨3402, .base, "0xW",
              [⟨"/api/chat", "Chat with the AI agent", 1/1000,
                fun _ => .ok "hi"⟩]⟩
            (fun _ => true)
            ⟨"/api/chat", none, ""⟩).response.paymentRequiredHeader.bind
          fun ch => ch.accepts.head?).map ChallengeAccepts.maxAmountRequired)
        = some "1000" := by
  have h := revenueGate_402_challenge
    ⟨3402, .base, "0xW",
      [⟨"/api/chat", "Chat with the AI agent", 1/1000, fun _ => .ok "hi"⟩]⟩
    (fun _ => true) ⟨"/api/chat", none, ""⟩
    ⟨"/api/chat", "Chat with the AI agent", 1/1000, fun _ => .ok "hi"⟩
    (by decide) (by decide) rfl rfl
  refine ⟨by decide, by decide, h.1, ?_⟩
  rw [h.2.1, show (⌈(1/1000 : ℚ) * 1000000⌉ : ℤ) = 1000 by norm_num]
  rfl

/-- C3 (code bug, flagged in the source's own TODO and in the spec): any
parseable `X-Payment` header is accepted without signature / amount /
deadline / redemption verification — here the empty JSON object unlocks
the service: the handler runs and the gate answers 200 with its result. -/
theorem revenueGate_trusts_header :
    (handleRevenueRequest
        ⟨3402, .base, "0xW",
          [⟨"/api/chat", "Chat with the AI agent", 1/1000,
            fun _ => .ok "hi"⟩]⟩
        (fun s => s == "\x7b\x7d")
        ⟨"/api/chat", some "\x7b\x7d", "body"⟩).response.status = 200 ∧
      (handleRevenueRequest
          ⟨3402, .base, "0xW",
            [⟨"/api/chat", "Chat with the AI agent", 1/1000,
              fun _ => .ok "hi"⟩]⟩
          (fun s => s == "\x7b\x7d")
          ⟨"/api/chat", some "\x7b\x7d", "body"⟩).response.body
        = .result "hi" ∧
      (handleRevenueRequest
          ⟨3402, .base, "0xW",
            [⟨"/api/chat", "Chat with the AI agent", 1/1000,
              fun _ => .ok "hi"⟩]⟩
          (fun s => s == "\x7b\x7d")
          ⟨"/api/chat", some "\x7b\x7d", "body"⟩).handlersInvoked
        = ["/api/chat"] :=
  ⟨rfl, rfl, rfl⟩

/-- C4 counterexample: with a parseable payment header and a failing
handler the gate answers 400, not a 5xx server error; and on a successful
handler run it records no earnings either, refuting the
"recorded iff the handler completed" reading. -/
theorem revenueGate_failure_status_counterexample :
    (handleRevenueRequest
        ⟨3402, .base, "0xW",
          [⟨"/api/chat", "Chat with the AI agent", 1/1000,
            fun _ => .error "inference failed"⟩]⟩
        (fun _ => true)
        ⟨"/api/chat", some "\x7b\x7d", "body"⟩).response.status = 400 ∧
      ¬ 500 ≤ (handleRevenueRequest
          ⟨3402, .base, "0xW",
            [⟨"/api/chat", "Chat with the AI agent", 1/1000,
              fun _ => .error "inference failed"⟩]⟩
          (fun _ => true)
          ⟨"/api/chat", some "\x7b\x7d", "body"⟩).response.status ∧
      (handleRevenueRequest
          ⟨3402, .base, "0xW",
            [⟨"/api/chat", "Chat with the AI agent", 1/1000,
              fun _ => .ok "hi"⟩]⟩
          (fun _ => true)
          ⟨"/api/chat", some "\x7b\x7d", "body"⟩).response.status = 200 ∧
      (handleRevenueRequest
          ⟨3402, .base, "0xW",
            [⟨"/api/chat", "Chat with the AI agent", 1/1000,
              fun _ => .ok "hi"⟩]⟩
          (fun _ => true)
          ⟨"/api/chat", some "\x7b\x7d", "body"⟩).earningsRecorded = [] :=
  ⟨rfl, by decide, rfl, rfl⟩

/-- C4 (amended): when the payment assertion parses but the service
handler fails, the gate answers 400 with body `Invalid payment` (the same
branch as a malformed assertion, not a 5xx); and the request handler
records no earnings on any branch — it never invokes the Revenue Tracker,
which therefore is unchanged by every request, failing or successful. -/
theorem revenueGate_failure_no_earnings (cfg : RevenueConfig)
    (jsonParses : String → Bool) (req : Request) (service : ServiceConfig)
    (header err : String)
    (hh : req.pathname ≠ "/health") (hs : req.pathname ≠ "/services")
    (hfind : (cfg.services.find? fun s => s.path == req.pathname)
      = some service)
    (hdr : req.xPayment = some header) (hp : jsonParses header = true)
    (hfail : service.handler req.body = .error err) :
    (handleRevenueRequest cfg jsonParses req).response.status = 400 ∧
      (handleRevenueRequest cfg jsonParses req).response.body
        = .errorMsg "Invalid payment" ∧
      ∀ (cfg' : RevenueConfig) (jsonParses' : String → Bool)
        (req' : Request) (t : RevenueTracker),
        applyEarnings t
          (handleRevenueRequest cfg' jsonParses' req').earningsRecorded = t := by
  refine ⟨?_, ?_, fun cfg' jsonParses' req' t => ?_⟩
  · simp [handleRevenueRequest, hh, hs, hfind, hdr, hp, hfail]
  · simp [handleRevenueRequest, hh, hs, hfind, hdr, hp, hfail]
  · rw [handleRevenueRequest_earnings]
    rfl

/-- Closed witness for `revenueGate_failure_no_earnings` on a failing
`/api/chat` handler and a nonempty tracker. -/
theorem revenueGate_failure_no_earnings_witness :
    ("/api/chat" : String) ≠ "/health" ∧
      (handleRevenueRequest
          ⟨3402, .base, "0xW",
            [⟨"/api/chat", "Chat with the AI agent", 1/1000,
              fun _ => .error "inference failed"⟩]⟩
          (fun _ => true)
          ⟨"/api/chat", some "\x7b\x7d", "body"⟩).response.status = 400 ∧
      applyEarnings ⟨[("/api/translate", 3/1000)], 3/1000⟩
          (handleRevenueRequest
            ⟨3402, .base, "0xW",
              [⟨"/api/chat", "Chat with the AI agent", 1/1000,
                fun _ => .error "inference failed"⟩]⟩
            (fun _ => true)
            ⟨"/api/chat", some "\x7b\x7d", "body"⟩).earningsRecorded
        = ⟨[("/api/translate", 3/1000)], 3/1000⟩ := by
  have h := revenueGate_failure_no_earnings
    ⟨3402, .base, "0xW",
      [⟨"/api/chat", "Chat with the AI agent", 1/1000,
        fun _ => .error "inference failed"⟩]⟩
    (fun _ => true) ⟨"/api/chat", some "\x7b\x7d", "body"⟩
    ⟨"/api/chat", "Chat with the AI agent", 1/1000,
      fun _ => .error "inference failed"⟩
    "\x7b\x7d" "inference failed"
    (by decide) (by decide) rfl rfl rfl rfl
  exact ⟨by decide, h.1,
    h.2.2 _ (fun _ => true) ⟨"/api/chat", some "\x7b\x7d", "body"⟩
      ⟨[("/api/translate", 3/1000)], 3/1000⟩⟩

/-! ### Resource monitor

From `checkResources` (monitor/resources): every awaited collaborator
call sits in its own `try`, so a throwing Balance Oracle only selects the
fallback value.  The poll is embedded as a pure function of the three
call outcomes, the key-value store and the clock reading
(`new Date().toISOString()`).  The imported tier function
`getSurvivalTier` (conway/credits) is a parameter: the monitor's
behaviour proved here holds for every such function. -/

structure ExecResult where
  stdout : String
  stderr : String
  exitCode : ℤ
deriving DecidableEq, Repr

/-- Outcomes of the three awaited calls of one poll:
`conway.getCreditsBalance()`, `getUsdcBalance(identity.address)` and
`conway.exec("echo ok", 5000)`; `error` is a thrown exception. -/
structure OracleOutcomes where
  credits : Except String ℚ
  usdc : Except String ℚ
  sandboxExec : Except String ExecResult

structure FinancialState where
  creditsCents : ℚ
  usdcBalance : ℚ
  lastChecked : String
deriving DecidableEq, Repr

/-- The automaton database's key-value table; `setKV` shadows earlier
entries and `getKV` reads the most recent one. -/
abbrev KVStore := List (String × String)

def getKV (db : KVStore) (k : String) : Option String :=
  (db.find? fun e => e.1 == k).map Prod.snd

def setKV (db : KVStore) (k v : String) : KVStore :=
  (k, v) :: db

/-- `JSON.stringify` of the financial state. -/
def serializeFinancial (f : FinancialState) : String :=
  "\x7b\"creditsCents\":" ++ toString f.creditsCents ++
    ",\"usdcBalance\":" ++ toString f.usdcBalance ++
    ",\"lastChecked\":\"" ++ f.lastChecked ++ "\"\x7d"

/-- The monitor's returned status; `tier` and `previousTier` are the
string enum values the source passes around and persists. -/
structure ResourceStatus where
  financial : FinancialState
  tier : String
  previousTier : Option String
  tierChanged : Bool
  sandboxHealthy : Bool
deriving DecidableEq, Repr

/-- One poll of `checkResources`: fall back to 0 on a failed credits or
USDC query, to unhealthy on a failed probe; classify; read the persisted
tier (`(prevTierStr as SurvivalTier) || null`, so an empty or absent
record is `null`); compute the change flag
(`previousTier !== null && previousTier !== tier`); persist the tier and
the financial state. -/
def checkResources (getSurvivalTier : ℚ → String) (oracle : OracleOutcomes)
    (db : KVStore) (now : String) : ResourceStatus × KVStore :=
  let creditsCents : ℚ := match oracle.credits with
    | .ok c => c
    | .error _ => 0
  let usdcBalance : ℚ := match oracle.usdc with
    | .ok u => u
    | .error _ => 0
  let sandboxHealthy : Bool := match oracle.sandboxExec with
    | .ok r => r.exitCode == 0
    | .error _ => false
  let financial : FinancialState := ⟨creditsCents, usdcBalance, now⟩
  let tier := getSurvivalTier creditsCents
  let previousTier : Option String := match getKV db "current_tier" with
    | some s => if s = "" then none else some s
    | none => none
  let tierChanged := previousTier.isSome && previousTier != some tier
  let db1 := setKV db "current_tier" tier
  let db2 := setKV db1 "financial_state" (serializeFinancial financial)
  (⟨financial, tier, previousTier, tierChanged, sandboxHealthy⟩, db2)

/-- C5: when the Balance Oracle throws, the poll still returns (the
embedding is a total function — nothing escapes), classifies the tier of
the fallback balance 0, reports a change flag computed by comparing the
new tier with the last persisted non-empty tier record, and writes both
the tier record and the financial-state record. -/
theorem checkResources_oracle_failure (getSurvivalTier : ℚ → String)
    (oracle : OracleOutcomes) (db : KVStore) (now e1 e2 : String)
    (hc : oracle.credits = .error e1) (hu : oracle.usdc = .error e2) :
    (checkResources getSurvivalTier oracle db now).1.tier
        = getSurvivalTier 0 ∧
      (checkResources getSurvivalTier oracle db now).1.financial
        = ⟨0, 0, now⟩ ∧
      (checkResources getSurvivalTier oracle db now).1.tierChanged
        = ((checkResources getSurvivalTier oracle db now).1.previousTier.isSome
            && (checkResources getSurvivalTier oracle db now).1.previousTier
              != some (getSurvivalTier 0)) ∧
      (getKV db "current_tier" = none →
        (checkResources getSurvivalTier oracle db now).1.previousTier = none) ∧
      (∀ s, getKV db "current_tier" = some s → s ≠ "" →
        (checkResources getSurvivalTier oracle db now).1.previousTier
          = some s) ∧
      getKV (checkResources getSurvivalTier oracle db now).2 "current_tier"
        = some (getSurvivalTier 0) ∧
      getKV (checkResources getSurvivalTier oracle db now).2 "financial_state"
        = some (serializeFinancial ⟨0, 0, now⟩) := by
  refine ⟨?_, ?_, ?_, ?_, ?_, ?_, ?_⟩
  · simp [checkResources, hc]
  · simp [checkResources, hc, hu]
  · simp [checkResources, hc]
  · intro h
    simp [checkResources, hc, h]
  · intro s hsome hne
    simp [checkResources, hc, hsome, hne]
  · simp [checkResources, hc, hu, getKV, setKV]
  · simp [checkResources, hc, hu, getKV, setKV]

/-- Closed witness for `checkResources_oracle_failure`: both funds
queries throw, the persisted tier is `normal`, and the poll classifies
`critical`, flags the change, and rewrites both records. -/
theorem checkResources_oracle_failure_witness :
    (OracleOutcomes.mk (.error "oracle down") (.error "rpc down")
          (.ok ⟨"ok\n", "", 0⟩)).credits = .error "oracle down" ∧
      (checkResources (fun c => if c ≥ 10 then "normal" else "critical")
          ⟨.error "oracle down", .error "rpc down", .ok ⟨"ok\n", "", 0⟩⟩
          [("current_tier", "normal")] "2026-10-12T00:00:00Z").1.tier
        = (fun c : ℚ => if c ≥ 10 then "normal" else "critical") 0 ∧
      getKV (checkResources (fun c => if c ≥ 10 then "normal" else "critical")
          ⟨.error "oracle down", .error "rpc down", .ok ⟨"ok\n", "", 0⟩⟩
          [("current_tier", "normal")] "2026-10-12T00:00:00Z").2 "current_tier"
        = some ((fun c : ℚ => if c ≥ 10 then "normal" else "critical") 0) ∧
      (checkResources (fun c => if c ≥ 10 then "normal" else "critical")
          ⟨.error "oracle down", .error "rpc down", .ok ⟨"ok\n", "", 0⟩⟩
          [("current_tier", "normal")] "2026-10-12T00:00:00Z").1.previousTier
        = some "normal" := by
  have h := checkResources_oracle_failure
    (fun c => if c ≥ 10 then "normal" else "critical")
    ⟨.error "oracle down", .error "rpc down", .ok ⟨"ok\n", "", 0⟩⟩
    [("current_tier", "normal")] "2026-10-12T00:00:00Z"
    "oracle down" "rpc down" rfl rfl
  exact ⟨rfl, h.1, h.2.2.2.2.2.1,
    h.2.2.2.2.1 "normal" rfl (by decide)⟩

end TaiX402
